import Mathlib

/-
Shallow embedding of the fire-detection backend (src/app.py): the rule-based
and model-based classifiers, the ingestion handler, the latest-readings and
stats queries, and the manual-predict handler.

Modelling conventions:
  * Python floats are rationals (ℚ), Python ints are integers (ℤ); IEEE
    doubles are a subset of ℚ and all the comparisons performed by the code
    are exact on that subset.
  * A raised Python exception is an `Except.error`; the handlers have no
    try/except, so an error in a sub-computation propagates to the HTTP
    boundary as an uncaught exception (`HttpResult.uncaught`).
  * A loaded scikit-learn artifact triple (predictor, scaler, label encoder)
    is an opaque record of functions that may fail; `none` is the
    not-loaded state, in which `predictor is None` holds.
  * ISO-8601 UTC timestamps compare lexicographically exactly as they
    compare chronologically, so timestamps are abstracted to integers
    (seconds); the 24-hour window is 24*3600 of them.
-/

/-- A JSON value as it appears in a request payload (the subset needed
here). -/
inductive JVal where
  | jnum  (q : ℚ)
  | jstr  (s : String)
  | jbool (b : Bool)
  | jnull
  deriving DecidableEq, Repr

/-- Value of a decimal digit character. -/
def digitVal (c : Char) : Option ℕ :=
  if c.isDigit then some (c.toNat - 48) else none

/-- A nonempty all-digit character list read as a natural number; `none`
on an empty list or any non-digit. -/
def digitsToNat : List Char → Option ℕ
  | [] => none
  | cs => cs.foldl (fun acc c =>
      match acc, digitVal c with
      | some n, some d => some (10 * n + d)
      | _, _ => none) (some 0)

/-- The decimal literals accepted by Python `float` on a string: optional
sign, integer part, optional fractional part (exponents and the special
words are not needed by this development). -/
def parseDecimal (s : String) : Option ℚ :=
  let body := s.toList
  let signAndDigits : ℚ × List Char :=
    match body with
    | '-' :: r => (-1, r)
    | '+' :: r => (1, r)
    | r => (1, r)
  let sign := signAndDigits.1
  let digits := signAndDigits.2
  let intPart := digits.takeWhile (·.isDigit)
  let rest := digits.dropWhile (·.isDigit)
  match rest with
  | [] => (digitsToNat intPart).map (fun n => sign * n)
  | '.' :: frac =>
      if intPart.isEmpty ∧ frac.isEmpty then none
      else if frac.all (·.isDigit) then
        some (sign * (((digitsToNat intPart).getD 0 : ℚ) +
          ((digitsToNat frac).getD 0 : ℚ) / (10 : ℚ) ^ frac.length))
      else none
  | _ => none

/-- The integer literals accepted by Python `int` on a string: optional
sign, then digits only (`int("3.7")` raises). -/
def parseInteger (s : String) : Option ℤ :=
  let body := s.toList
  let signAndDigits : ℤ × List Char :=
    match body with
    | '-' :: r => (-1, r)
    | '+' :: r => (1, r)
    | r => (1, r)
  (digitsToNat signAndDigits.2).map (fun n => signAndDigits.1 * n)

/-- Python `int()` on a float truncates toward zero. -/
def ratTrunc (q : ℚ) : ℤ := q.num.tdiv (q.den : ℤ)

/-- Python `float(v)` on a JSON value: numbers pass through, booleans are
0/1, strings are parsed as decimal literals, anything else raises. -/
def pyFloat : JVal → Except String ℚ
  | .jnum q  => .ok q
  | .jbool b => .ok (if b then 1 else 0)
  | .jstr s  =>
      match parseDecimal s with
      | some q => .ok q
      | none => .error ("could not convert string to float: " ++ s)
  | .jnull   => .error "float() argument must be a string or a real number, not NoneType"

/-- Python `int(v)` on a JSON value: numbers truncate toward zero, booleans
are 0/1, strings must be integer literals, anything else raises. -/
def pyInt : JVal → Except String ℤ
  | .jnum q  => .ok (ratTrunc q)
  | .jbool b => .ok (if b then 1 else 0)
  | .jstr s  =>
      match parseInteger s with
      | some n => .ok n
      | none => .error ("invalid literal for int() with base 10: " ++ s)
  | .jnull   => .error "int() argument must be a string or a real number, not NoneType"

/-- Python round-half-to-even of a rational to an integer. -/
def roundHalfEven (q : ℚ) : ℤ :=
  let f : ℤ := q.num.fdiv (q.den : ℤ)
  let r : ℚ := q - (f : ℚ)
  if r < 1/2 then f
  else if r > 1/2 then f + 1
  else if f % 2 = 0 then f else f + 1

/-- Python `round(q, ndigits)` (banker's rounding at a decimal position). -/
def pyRound (q : ℚ) (ndigits : ℕ) : ℚ :=
  (roundHalfEven (q * (10 : ℚ) ^ ndigits) : ℚ) / (10 : ℚ) ^ ndigits

/-- One classified sensor observation, as stored in the `sensor_readings`
table of src/app.py (`init_db`). -/
structure Reading where
  id : ℕ
  device_id : String
  timestamp : ℤ
  temperature : ℚ
  smoke : ℤ
  gas : ℤ
  risk_level : String
  risk_code : ℤ
  deriving DecidableEq, Repr

/-- The append-only reading log (`sensor_readings` with its AUTOINCREMENT
primary key). The list is kept in insertion order; `nextId` is the next
value of the autoincrement counter. -/
structure Store where
  readings : List Reading
  nextId : ℕ
  deriving DecidableEq, Repr

/-- The TEXT affinity of the `device_id` column: a text binding is stored
as is; a non-text binding is stored as some rendered text (the exact
rendering of non-text bindings is never relied on below). -/
def sqlText : JVal → String
  | .jstr s => s
  | .jnum q => toString q.num
  | .jbool b => toString b
  | .jnull => ""

/-- A loaded classifier artifact triple (src/app.py globals `predictor`,
`scaler`, `label_enc` plus `model_meta`), opaque to the backend.  The
functions model `predictor.predict(X)[0]` coerced with `int()`,
`predictor.predict_proba(X)[0].tolist()`, `scaler.transform(X)[0]` and
`label_enc.inverse_transform([c])[0]`; each may raise
(`Except.error`). `classes` is `label_enc.classes_`; `useScaled` is the
truthiness of `model_meta.get("use_scaled")`; `modelName` stands for the
`model_meta` record echoed by `/api/stats`. -/
structure Model where
  predict : List ℚ → Except String ℤ
  predictProba : List ℚ → Except String (List ℚ)
  scalerTransform : List ℚ → Except String (List ℚ)
  inverseTransform : ℤ → Except String String
  classes : List String
  useScaled : Bool
  modelName : String

/-- src/app.py `rule_predict` (lines 101-112): the fixed-threshold
rule-based classifier. -/
def rule_predict (temperature : ℚ) (smoke gas : ℤ) : String × ℤ × Option (List ℚ) :=
  let score : ℕ :=
    (if temperature ≥ 60 then 2 else if temperature ≥ 45 then 1 else 0) +
    (if smoke ≥ 500 then 2 else if smoke ≥ 300 then 1 else 0) +
    (if gas ≥ 700 then 2 else if gas ≥ 400 then 1 else 0)
  if score ≤ 1 then ("LOW", 0, none)
  else if score ≤ 3 then ("MEDIUM", 1, none)
  else ("HIGH", 2, none)

/-- src/app.py line 122-123: `RISK_CODES.get(label, 0)` for the fixed
dictionary `LOW:0, MEDIUM:1, HIGH:2`; an unknown label defaults to 0. -/
def RISK_CODES (label : String) : ℤ :=
  if label = "LOW" then 0
  else if label = "MEDIUM" then 1
  else if label = "HIGH" then 2
  else 0

/-- src/app.py `ml_predict` (lines 114-124).  When no predictor is loaded
it falls back to `rule_predict`; otherwise it runs the model pipeline with
no exception handling, so any failing step propagates. -/
def ml_predict (m : Option Model) (temperature : ℚ) (smoke gas : ℤ) :
    Except String (String × ℤ × Option (List ℚ)) :=
  match m with
  | none => .ok (rule_predict temperature smoke gas)
  | some mdl =>
    let feat : List ℚ := [temperature, (smoke : ℚ), (gas : ℚ)]
    match (if mdl.useScaled then mdl.scalerTransform feat else .ok feat) with
    | .error e => .error e
    | .ok feat_sc =>
      match mdl.predict feat_sc with
      | .error e => .error e
      | .ok enc_code =>
        match mdl.predictProba feat_sc with
        | .error e => .error e
        | .ok proba =>
          match mdl.inverseTransform enc_code with
          | .error e => .error e
          | .ok label => .ok (label, RISK_CODES label, some proba)

/-- The JSON body a handler sends back on success: `status` is present only
in the ingestion response; `probabilities` is the optional label→probability
map (an association list keyed like the Python dict comprehension). -/
structure ApiResponse where
  status : Option String
  risk_level : String
  risk_code : ℤ
  probabilities : Option (List (String × ℚ))
  deriving DecidableEq, Repr

/-- The outcome of one request at the HTTP boundary: a 200 JSON body, a 400
`jsonify({"error": message})` reply, or an uncaught Python exception (which
Flask turns into a 500 server error). -/
inductive HttpResult where
  | ok (resp : ApiResponse)
  | clientError (message : String)
  | uncaught (message : String)
  deriving DecidableEq, Repr

/-- The value of `data[k]` once `k in data` has been checked; the `jnull`
default is never reached in those runs. -/
def jget (data : List (String × JVal)) (k : String) : JVal :=
  (data.lookup k).getD .jnull

/-- The field-presence loop of src/app.py lines 136-138, unrolled: the
first of `device_id`, `temperature`, `smoke`, `gas` absent from the
payload, if any. -/
def firstMissing (data : List (String × JVal)) : Option String :=
  if (data.lookup "device_id").isNone then some "device_id"
  else if (data.lookup "temperature").isNone then some "temperature"
  else if (data.lookup "smoke").isNone then some "smoke"
  else if (data.lookup "gas").isNone then some "gas"
  else none

/-- src/app.py `receive_sensor_data` (lines 131-161), the `POST
/api/sensor-data` handler.  `m` is the process-wide classifier state, `now`
the server clock at ingestion, `data` the parsed JSON object, `st` the
store.  `if not data` rejects a parsed-but-empty object before the
per-field checks; the `float`/`int` coercions and `ml_predict` are
unguarded, so their failures become uncaught exceptions.  The probabilities
branch models `if proba and label_enc is not None` (a loaded model is the
only state with a non-None `label_enc`, and an empty list is falsy). -/
def receive_sensor_data (m : Option Model) (now : ℤ)
    (data : List (String × JVal)) (st : Store) : HttpResult × Store :=
  if data.isEmpty then (.clientError "No JSON body", st)
  else
    match firstMissing data with
    | some field => (.clientError ("Missing field: " ++ field), st)
    | none =>
      match pyFloat (jget data "temperature") with
      | .error e => (.uncaught e, st)
      | .ok temp =>
        match pyInt (jget data "smoke") with
        | .error e => (.uncaught e, st)
        | .ok smoke =>
          match pyInt (jget data "gas") with
          | .error e => (.uncaught e, st)
          | .ok gas =>
            match ml_predict m temp smoke gas with
            | .error e => (.uncaught e, st)
            | .ok (label, code, proba) =>
              let reading : Reading :=
                { id := st.nextId
                  device_id := sqlText (jget data "device_id")
                  timestamp := now
                  temperature := temp
                  smoke := smoke
                  gas := gas
                  risk_level := label
                  risk_code := code }
              let st' : Store :=
                { readings := st.readings ++ [reading], nextId := st.nextId + 1 }
              let resp : ApiResponse :=
                { status := some "ok"
                  risk_level := label
                  risk_code := code
                  probabilities :=
                    match proba, m with
                    | some l, some mdl =>
                        if l.isEmpty then none
                        else some (mdl.classes.zip (l.map (fun p => pyRound p 4)))
                    | _, _ => none }
              (.ok resp, st')

/-- src/app.py `get_latest` (lines 163-177), the `GET /api/latest` query.
`ORDER BY id DESC` coincides with reversing the log on every store whose
log is ascending in id (every store reachable by ingestion); that
sortedness appears as an explicit hypothesis in the theorems.  `if device:`
is false both for an absent parameter and for the empty string. -/
def get_latest (device : Option String) (limit : ℕ) (st : Store) : List Reading :=
  match device with
  | some d =>
      if d = "" then (st.readings.reverse).take limit
      else ((st.readings.filter (fun r => r.device_id == d)).reverse).take limit
  | none => (st.readings.reverse).take limit

/-- The `/api/stats` JSON body (src/app.py lines 200-211): totals, risk
distribution, trailing-24h window aggregates, and the `model_meta or
"rule-based"` echo (abbreviated here to the model name, `none` standing
for the rule-based marker). -/
structure StatsSnapshot where
  total_readings : ℕ
  dist_low : ℕ
  dist_medium : ℕ
  dist_high : ℕ
  count_24h : ℕ
  avg_temp : ℚ
  avg_smoke : ℚ
  avg_gas : ℚ
  max_temp : ℚ
  model : Option String
  deriving DecidableEq, Repr

/-- src/app.py `get_stats` (lines 179-211): the four COUNT queries, the
trailing-24h triple query (`timestamp >= cutoff`, cutoff = now − 24h), and
the `if recent:` branch — averages and max are computed and rounded to two
decimals on a nonempty window and are literally 0 on an empty one. -/
def get_stats (m : Option Model) (now : ℤ) (st : Store) : StatsSnapshot :=
  let total := st.readings.length
  let high := (st.readings.filter (fun r => r.risk_level == "HIGH")).length
  let medium := (st.readings.filter (fun r => r.risk_level == "MEDIUM")).length
  let low := (st.readings.filter (fun r => r.risk_level == "LOW")).length
  let cutoff := now - 24 * 3600
  let recent := (st.readings.filter (fun r => cutoff ≤ r.timestamp)).map
      (fun r => (r.temperature, r.smoke, r.gas))
  match recent with
  | [] =>
      { total_readings := total, dist_low := low, dist_medium := medium,
        dist_high := high, count_24h := 0, avg_temp := 0, avg_smoke := 0,
        avg_gas := 0, max_temp := 0, model := m.map (fun mdl => mdl.modelName) }
  | x :: xs =>
      let n : ℚ := ((x :: xs).length : ℕ)
      { total_readings := total, dist_low := low, dist_medium := medium,
        dist_high := high, count_24h := (x :: xs).length,
        avg_temp := pyRound ((((x :: xs).map (fun p => p.1)).sum) / n) 2,
        avg_smoke := pyRound ((((x :: xs).map (fun p => (p.2.1 : ℚ))).sum) / n) 2,
        avg_gas := pyRound ((((x :: xs).map (fun p => (p.2.2 : ℚ))).sum) / n) 2,
        max_temp := pyRound ((xs.map (fun p => p.1)).foldl max x.1) 2,
        model := m.map (fun mdl => mdl.modelName) }

/-- src/app.py `manual_predict` (lines 219-229), the `POST /api/predict`
handler: no presence checks — `data.get` substitutes the defaults 30, 100,
150 for absent fields — no store access, and the same response as
ingestion minus `status`. -/
def manual_predict (m : Option Model) (data : List (String × JVal))
    (st : Store) : HttpResult × Store :=
  match pyFloat ((data.lookup "temperature").getD (.jnum 30)) with
  | .error e => (.uncaught e, st)
  | .ok temp =>
    match pyInt ((data.lookup "smoke").getD (.jnum 100)) with
    | .error e => (.uncaught e, st)
    | .ok smoke =>
      match pyInt ((data.lookup "gas").getD (.jnum 150)) with
      | .error e => (.uncaught e, st)
      | .ok gas =>
        match ml_predict m temp smoke gas with
        | .error e => (.uncaught e, st)
        | .ok (label, code, proba) =>
          (.ok { status := none
                 risk_level := label
                 risk_code := code
                 probabilities :=
                   match proba, m with
                   | some l, some mdl =>
                       if l.isEmpty then none
                       else some (mdl.classes.zip (l.map (fun p => pyRound p 4)))
                   | _, _ => none }, st)

/-! ## Spec-worded definitions (for the refinement comparison of claim C1) -/

/-- Modelled from the spec's words: the severity score is the sum of three
independent contributions (temperature: +2 if ≥60, else +1 if ≥45, else 0;
smoke: +2 if ≥500, else +1 if ≥300, else 0; gas: +2 if ≥700, else +1 if
≥400, else 0). -/
def spec_score (temperature : ℚ) (smoke gas : ℤ) : ℕ :=
  (if temperature ≥ 60 then 2 else if temperature ≥ 45 then 1 else 0) +
  (if smoke ≥ 500 then 2 else if smoke ≥ 300 then 1 else 0) +
  (if gas ≥ 700 then 2 else if gas ≥ 400 then 1 else 0)

/-- Modelled from the spec's words: score ≤ 1 → LOW, score 2 or 3 →
MEDIUM, score ≥ 4 → HIGH, with the fixed codes 0/1/2. -/
def spec_label (score : ℕ) : String × ℤ :=
  if score ≤ 1 then ("LOW", 0)
  else if score = 2 ∨ score = 3 then ("MEDIUM", 1)
  else ("HIGH", 2)

/-- The code's score-to-result chain agrees with the spec's worded map at
every score. -/
theorem label_map_agrees (n : ℕ) :
    (if n ≤ 1 then (("LOW", 0, none) : String × ℤ × Option (List ℚ))
     else if n ≤ 3 then ("MEDIUM", 1, none) else ("HIGH", 2, none)) =
    ((spec_label n).1, (spec_label n).2, none) := by
  unfold spec_label
  split_ifs <;> first | rfl | omega

/-- C1: the rule-based classifier computes the integer severity score as
the sum of the three threshold contributions and maps it to LOW (score ≤ 1),
MEDIUM (score 2 or 3), HIGH (score ≥ 4); in particular (60,0,0) scores 2
giving MEDIUM, (65,600,0) scores 4 giving HIGH, and (10,0,0) scores 0
giving LOW. -/
theorem rule_predict_score_and_label (temperature : ℚ) (smoke gas : ℤ) :
    rule_predict temperature smoke gas =
      ((spec_label (spec_score temperature smoke gas)).1,
       (spec_label (spec_score temperature smoke gas)).2, none) ∧
    spec_score 60 0 0 = 2 ∧ rule_predict 60 0 0 = ("MEDIUM", 1, none) ∧
    spec_score 65 600 0 = 4 ∧ rule_predict 65 600 0 = ("HIGH", 2, none) ∧
    spec_score 10 0 0 = 0 ∧ rule_predict 10 0 0 = ("LOW", 0, none) := by
  refine ⟨?_, by decide, by decide, by decide, by decide, by decide, by decide⟩
  rw [show rule_predict temperature smoke gas =
      (if spec_score temperature smoke gas ≤ 1
        then (("LOW", 0, none) : String × ℤ × Option (List ℚ))
        else if spec_score temperature smoke gas ≤ 3 then ("MEDIUM", 1, none)
        else ("HIGH", 2, none)) from rfl]
  exact label_map_agrees _

/-- C8: the rule-based classifier is a pure total deterministic function —
identical inputs give identical results — and its probabilities component
is always `none`. -/
theorem rule_predict_deterministic_no_proba (t1 : ℚ) (s1 g1 : ℤ) (t2 : ℚ)
    (s2 g2 : ℤ) (ht : t1 = t2) (hs : s1 = s2) (hg : g1 = g2) :
    rule_predict t1 s1 g1 = rule_predict t2 s2 g2 ∧
    (rule_predict t1 s1 g1).2.2 = none := by
  subst ht; subst hs; subst hg
  refine ⟨rfl, ?_⟩
  simp only [rule_predict]
  split_ifs <;> rfl

theorem rule_predict_deterministic_no_proba_witness :
    (50 : ℚ) = 50 ∧ (350 : ℤ) = 350 ∧ (0 : ℤ) = 0 ∧
    (rule_predict 50 350 0 = rule_predict 50 350 0 ∧
     (rule_predict 50 350 0).2.2 = none) :=
  ⟨rfl, rfl, rfl, rule_predict_deterministic_no_proba 50 350 0 50 350 0 rfl rfl rfl⟩

/-- C9: a payload that parses to the empty JSON object is rejected with
the generic "No JSON body" error before the per-field presence checks run,
not with a missing-field error naming `device_id`. -/
theorem empty_object_rejected_as_no_json_body (m : Option Model) (now : ℤ)
    (st : Store) :
    receive_sensor_data m now [] st = (.clientError "No JSON body", st) ∧
    "No JSON body" ≠ "Missing field: device_id" :=
  ⟨rfl, by decide⟩

/-- C5: stats on an empty store succeed with every count, average and max
equal to 0 (the function is total on ℚ, so no NaN and no error arises). -/
theorem stats_empty_store (m : Option Model) (now : ℤ) (k : ℕ) :
    get_stats m now ⟨[], k⟩ =
      { total_readings := 0, dist_low := 0, dist_medium := 0, dist_high := 0,
        count_24h := 0, avg_temp := 0, avg_smoke := 0, avg_gas := 0,
        max_temp := 0, model := m.map (fun mdl => mdl.modelName) } := rfl

/-! ## Claim C2: the label/code pair -/

/-- A loaded artifact whose label encoder decodes class 0 to a label
outside the fixed LOW/MEDIUM/HIGH set (the encoder's classes are whatever
the training data contained; the backend does not constrain them). -/
def unknownLabelModel : Model where
  predict := fun _ => .ok 0
  predictProba := fun _ => .ok []
  scalerTransform := fun f => .ok f
  inverseTransform := fun _ => .ok "SMOKE_ALERT"
  classes := ["SMOKE_ALERT"]
  useScaled := false
  modelName := "RandomForest"

/-- C2 counterexample: with a loaded model whose encoder decodes to the
label "SMOKE_ALERT", the model-based classifier returns that label (paired
with the defaulted code 0), so the returned label is not one of LOW,
MEDIUM, HIGH — the claimed invariant fails on the model-based strategy. -/
theorem risk_pair_bijection_counterexample :
    ml_predict (some unknownLabelModel) 25 100 150 =
      .ok ("SMOKE_ALERT", 0, some []) ∧
    ¬("SMOKE_ALERT" = "LOW" ∨ "SMOKE_ALERT" = "MEDIUM" ∨
      "SMOKE_ALERT" = "HIGH") :=
  ⟨rfl, by decide⟩

/-- C2 amended: every pair returned by either strategy is consistent with
the fixed mapping on the known labels — LOW pairs with 0, MEDIUM with 1,
HIGH with 2 — and any label outside that set (possible only on the
model-based strategy) is paired with the defaulted code 0. -/
theorem risk_pair_consistency (m : Option Model) (t : ℚ) (s g : ℤ)
    (label : String) (code : ℤ) (proba : Option (List ℚ))
    (h : ml_predict m t s g = .ok (label, code, proba)) :
    (label = "LOW" ∧ code = 0) ∨ (label = "MEDIUM" ∧ code = 1) ∨
    (label = "HIGH" ∧ code = 2) ∨
    (label ≠ "LOW" ∧ label ≠ "MEDIUM" ∧ label ≠ "HIGH" ∧ code = 0) := by
  cases m with
  | none =>
    have h' : rule_predict t s g = (label, code, proba) := by
      simpa [ml_predict] using h
    simp only [rule_predict] at h'
    split_ifs at h' <;>
      · simp only [Prod.mk.injEq] at h'
        obtain ⟨rfl, rfl, rfl⟩ := h'
        decide
  | some mdl =>
    simp only [ml_predict] at h
    split at h
    · exact Except.noConfusion h
    split at h
    · exact Except.noConfusion h
    split at h
    · exact Except.noConfusion h
    split at h
    · exact Except.noConfusion h
    simp only [Except.ok.injEq, Prod.mk.injEq] at h
    obtain ⟨rfl, rfl, rfl⟩ := h
    unfold RISK_CODES
    split_ifs <;> simp_all

theorem risk_pair_consistency_witness :
    ("LOW" = "LOW" ∧ (0 : ℤ) = 0) ∨ ("LOW" = "MEDIUM" ∧ (0 : ℤ) = 1) ∨
    ("LOW" = "HIGH" ∧ (0 : ℤ) = 2) ∨
    ("LOW" ≠ "LOW" ∧ "LOW" ≠ "MEDIUM" ∧ "LOW" ≠ "HIGH" ∧ (0 : ℤ) = 0) :=
  risk_pair_consistency none 25 100 150 "LOW" 0 none rfl

/-! ## Claims C3 and C4: the unguarded ingestion error paths -/

/-- A loaded artifact whose predictor raises on every call (for instance a
feature-shape mismatch between the stored estimator and the 3-feature
vector the backend builds). -/
def throwingModel : Model where
  predict := fun _ =>
    .error "ValueError: X has 3 features, but the estimator expects 4"
  predictProba := fun _ => .ok []
  scalerTransform := fun f => .ok f
  inverseTransform := fun _ => .ok "LOW"
  classes := ["HIGH", "LOW", "MEDIUM"]
  useScaled := false
  modelName := "RandomForest"

/-- A well-formed ingestion payload. -/
def okPayload : List (String × JVal) :=
  [("device_id", .jstr "SIMULATOR_01"), ("temperature", .jnum 25),
   ("smoke", .jnum 100), ("gas", .jnum 150)]

/-- C3 (code bug): with a loaded model whose predict call fails, the same
well-formed payload that succeeds through the rule-based path makes
ingestion itself fail with an uncaught exception — there is no per-call
fallback to the rule-based strategy, and nothing is persisted. -/
theorem model_failure_crashes_ingestion :
    receive_sensor_data (some throwingModel) 0 okPayload ⟨[], 1⟩ =
      (.uncaught "ValueError: X has 3 features, but the estimator expects 4",
       ⟨[], 1⟩) ∧
    receive_sensor_data none 0 okPayload ⟨[], 1⟩ =
      (.ok { status := some "ok", risk_level := "LOW", risk_code := 0,
             probabilities := none },
       ⟨[{ id := 1, device_id := "SIMULATOR_01", timestamp := 0,
           temperature := 25, smoke := 100, gas := 150,
           risk_level := "LOW", risk_code := 0 }], 2⟩) :=
  ⟨rfl, rfl⟩

/-- A payload whose `temperature` is present but non-numeric. -/
def badTempPayload : List (String × JVal) :=
  [("device_id", .jstr "SIMULATOR_01"), ("temperature", .jstr "hot"),
   ("smoke", .jnum 100), ("gas", .jnum 150)]

/-- C4 (code bug): a present but non-numeric `temperature` makes the
unguarded `float` coercion raise, so ingestion fails with an uncaught
exception instead of the claimed type error naming the field; by contrast
an absent field does get a named client error, showing where the named
error handling stops. -/
theorem non_numeric_field_crashes_ingestion :
    receive_sensor_data none 0 badTempPayload ⟨[], 1⟩ =
      (.uncaught "could not convert string to float: hot", ⟨[], 1⟩) ∧
    receive_sensor_data none 0
      [("device_id", .jstr "SIMULATOR_01"), ("smoke", .jnum 100),
       ("gas", .jnum 150)] ⟨[], 1⟩ =
      (.clientError "Missing field: temperature", ⟨[], 1⟩) :=
  ⟨rfl, rfl⟩

/-! ## Claim C10: manual-predict defaults -/

/-- C10: a missing feature field is not an error and is substituted
per-field: on any payload, each absent field behaves exactly as if its
fixed default (temperature 30, smoke 100, gas 150) had been supplied
explicitly, independently of whether the other fields are present; and
when all three are absent and no model is loaded the call succeeds
through the rule-based strategy on (30, 100, 150), which classifies as
LOW (no error). -/
theorem manual_predict_defaults (m : Option Model)
    (data : List (String × JVal)) (st : Store) :
    (data.lookup "temperature" = none →
      manual_predict m data st =
        manual_predict m (("temperature", .jnum 30) :: data) st) ∧
    (data.lookup "smoke" = none →
      manual_predict m data st =
        manual_predict m (("smoke", .jnum 100) :: data) st) ∧
    (data.lookup "gas" = none →
      manual_predict m data st =
        manual_predict m (("gas", .jnum 150) :: data) st) ∧
    (data.lookup "temperature" = none → data.lookup "smoke" = none →
      data.lookup "gas" = none → m = none →
      manual_predict m data st =
        (.ok { status := none, risk_level := "LOW", risk_code := 0,
               probabilities := none }, st)) := by
  refine ⟨?_, ?_, ?_, ?_⟩
  · intro ht
    unfold manual_predict
    rw [ht]
    exact rfl
  · intro hs
    unfold manual_predict
    rw [hs]
    exact rfl
  · intro hg
    unfold manual_predict
    rw [hg]
    exact rfl
  · intro ht hs hg hm
    subst hm
    unfold manual_predict
    rw [ht, hs, hg]
    rfl

theorem manual_predict_defaults_witness :
    ([(("temperature" : String), JVal.jnum 80)].lookup "smoke" = none) ∧
    ([(("temperature" : String), JVal.jnum 80)].lookup "gas" = none) ∧
    (manual_predict none [("temperature", JVal.jnum 80)] ⟨[], 1⟩ =
      manual_predict none
        (("smoke", .jnum 100) :: [("temperature", JVal.jnum 80)]) ⟨[], 1⟩) ∧
    (manual_predict none [("temperature", JVal.jnum 80)] ⟨[], 1⟩ =
      manual_predict none
        (("gas", .jnum 150) :: [("temperature", JVal.jnum 80)]) ⟨[], 1⟩) :=
  ⟨by decide, by decide,
   (manual_predict_defaults none [("temperature", JVal.jnum 80)] ⟨[], 1⟩).2.1
     (by decide),
   (manual_predict_defaults none [("temperature", JVal.jnum 80)] ⟨[], 1⟩).2.2.1
     (by decide)⟩

/-! ## Claim C6: the latest-readings query -/

/-- Well-formedness of the reading log: ids strictly ascending in insertion
order and all below the autoincrement counter.  Every store reachable by
ingestion satisfies it (`receive_sensor_data_preserves_WF`). -/
def Store.WF (st : Store) : Prop :=
  st.readings.Pairwise (fun a b => a.id < b.id) ∧
  ∀ r ∈ st.readings, r.id < st.nextId

/-- Ingestion preserves the store invariant: on every outcome branch the
store is unchanged or extended with one reading carrying the next id. -/
theorem receive_sensor_data_preserves_WF (m : Option Model) (now : ℤ)
    (data : List (String × JVal)) (st : Store) (h : st.WF) :
    (receive_sensor_data m now data st).2.WF := by
  unfold receive_sensor_data
  split
  · exact h
  split
  · exact h
  split
  · exact h
  split
  · exact h
  split
  · exact h
  split
  · exact h
  refine ⟨?_, ?_⟩
  · refine List.pairwise_append.mpr ⟨h.1, List.pairwise_singleton _ _, ?_⟩
    intro a ha b hb
    rw [List.mem_singleton] at hb
    subst hb
    exact h.2 a ha
  · intro r hr
    rcases List.mem_append.mp hr with hl | hr1
    · exact Nat.lt_succ_of_lt (h.2 r hl)
    · rw [List.mem_singleton] at hr1
      subst hr1
      exact Nat.lt_succ_self _

/-- C6: on any id-ascending store, the latest-readings query returns at
most `limit` readings, strictly descending by id, and — when a non-empty
device filter is supplied — only readings of that device. -/
theorem get_latest_spec (st : Store) (dev : Option String) (limit : ℕ)
    (hasc : st.readings.Pairwise (fun a b => a.id < b.id)) :
    (get_latest dev limit st).length ≤ limit ∧
    (get_latest dev limit st).Pairwise (fun a b => b.id < a.id) ∧
    ∀ d, dev = some d → d ≠ "" →
      ∀ r ∈ get_latest dev limit st, r.device_id = d := by
  have key : ∀ l : List Reading, l.Pairwise (fun a b => a.id < b.id) →
      ((l.reverse.take limit).length ≤ limit ∧
       (l.reverse.take limit).Pairwise (fun a b => b.id < a.id)) := by
    intro l hl
    constructor
    · rw [List.length_take]
      exact min_le_left _ _
    · exact List.Pairwise.sublist (List.take_sublist _ _)
        (List.pairwise_reverse.mpr hl)
  rcases dev with _ | d
  · have e : get_latest none limit st = (st.readings.reverse).take limit := rfl
    rw [e]
    exact ⟨(key _ hasc).1, (key _ hasc).2, by intro d hd; exact absurd hd (by simp)⟩
  · by_cases hd : d = ""
    · subst hd
      have e : get_latest (some "") limit st = (st.readings.reverse).take limit := by
        simp [get_latest]
      rw [e]
      refine ⟨(key _ hasc).1, (key _ hasc).2, ?_⟩
      intro d' hd' hne
      exact absurd (Option.some.inj hd').symm hne
    · have e : get_latest (some d) limit st =
          ((st.readings.filter (fun r => r.device_id == d)).reverse).take limit := by
        simp [get_latest, hd]
      rw [e]
      refine ⟨(key _ ?_).1, (key _ ?_).2, ?_⟩
      · exact List.Pairwise.sublist (List.filter_sublist _) hasc
      · exact List.Pairwise.sublist (List.filter_sublist _) hasc
      · intro d' hd' hne r hr
        obtain rfl : d = d' := Option.some.inj hd'
        have h1 : r ∈ (st.readings.filter (fun r => r.device_id == d)).reverse :=
          List.mem_of_mem_take hr
        have h2 : r ∈ st.readings.filter (fun r => r.device_id == d) :=
          List.mem_reverse.mp h1
        exact beq_iff_eq.mp (List.mem_filter.mp h2).2

/-- A small id-ascending store used to instantiate the query theorem. -/
def witnessStore : Store :=
  ⟨[⟨1, "A", 0, 20, 50, 80, "LOW", 0⟩,
    ⟨2, "B", 10, 30, 60, 90, "LOW", 0⟩,
    ⟨3, "A", 20, 70, 600, 100, "HIGH", 2⟩], 4⟩

theorem get_latest_spec_witness :
    witnessStore.readings.Pairwise (fun a b => a.id < b.id) ∧
    ((get_latest (some "A") 2 witnessStore).length ≤ 2 ∧
     (get_latest (some "A") 2 witnessStore).Pairwise (fun a b => b.id < a.id) ∧
     ∀ d, (some "A" : Option String) = some d → d ≠ "" →
       ∀ r ∈ get_latest (some "A") 2 witnessStore, r.device_id = d) :=
  ⟨by decide, get_latest_spec witnessStore (some "A") 2 (by decide)⟩

/-! ## Claim C7: manual predict persists nothing, same shape minus status -/

/-- C7: whenever ingestion succeeds on a payload, manual predict on the
same payload leaves the store untouched and returns exactly the ingestion
success response with the `status` field removed (risk_level, risk_code
and the optional probabilities map are identical). -/
theorem manual_predict_frame_and_shape (m : Option Model) (now : ℤ)
    (data : List (String × JVal)) (st : Store) (resp : ApiResponse) (st' : Store)
    (h : receive_sensor_data m now data st = (.ok resp, st')) :
    (manual_predict m data st).2 = st ∧
    manual_predict m data st = (.ok { resp with status := none }, st) := by
  have main : manual_predict m data st = (.ok { resp with status := none }, st) := by
    unfold receive_sensor_data at h
    split at h
    · simp at h
    split at h
    · simp at h
    rename_i hfm
    split at h
    · simp at h
    rename_i temp heqT
    split at h
    · simp at h
    rename_i smoke heqS
    split at h
    · simp at h
    rename_i gas heqG
    split at h
    · simp at h
    rename_i label code proba heqP
    simp only [Prod.mk.injEq, HttpResult.ok.injEq] at h
    obtain ⟨hresp, hst⟩ := h
    -- the presence check passed, so all three feature fields are present
    unfold firstMissing at hfm
    split_ifs at hfm with h1 h2 h3 h4
    rw [Option.isNone_iff_eq_none] at h2 h3 h4
    obtain ⟨vt, hvt⟩ := Option.ne_none_iff_exists'.mp h2
    obtain ⟨vs, hvs⟩ := Option.ne_none_iff_exists'.mp h3
    obtain ⟨vg, hvg⟩ := Option.ne_none_iff_exists'.mp h4
    simp only [jget, hvt, Option.getD_some] at heqT
    simp only [jget, hvs, Option.getD_some] at heqS
    simp only [jget, hvg, Option.getD_some] at heqG
    unfold manual_predict
    rw [hvt, hvs, hvg]
    simp only [Option.getD_some, heqT, heqS, heqG, heqP]
    rw [← hresp]
  exact ⟨by rw [main], main⟩

theorem manual_predict_frame_and_shape_witness :
    (receive_sensor_data none 0 okPayload ⟨[], 1⟩ =
      (.ok { status := some "ok", risk_level := "LOW", risk_code := 0,
             probabilities := none },
       ⟨[{ id := 1, device_id := "SIMULATOR_01", timestamp := 0,
           temperature := 25, smoke := 100, gas := 150,
           risk_level := "LOW", risk_code := 0 }], 2⟩)) ∧
    ((manual_predict none okPayload ⟨[], 1⟩).2 = ⟨[], 1⟩ ∧
     manual_predict none okPayload ⟨[], 1⟩ =
       (.ok { status := none, risk_level := "LOW", risk_code := 0,
              probabilities := none }, ⟨[], 1⟩)) :=
  ⟨rfl,
   manual_predict_frame_and_shape none 0 okPayload ⟨[], 1⟩
     { status := some "ok", risk_level := "LOW", risk_code := 0,
       probabilities := none }
     ⟨[{ id := 1, device_id := "SIMULATOR_01", timestamp := 0,
         temperature := 25, smoke := 100, gas := 150,
         risk_level := "LOW", risk_code := 0 }], 2⟩ rfl⟩
